import Mathlib

/-!
Verification development for the AIKyudo repository (kyudo form analyzer).

The development shallowly embeds the three algorithmic cores of the code:

* the form scorer `evaluateForm` of `src/components/VideoAnalyzer.tsx`
  (embedded over `ℚ`; the square root used by the standard deviation is
  passed as an explicit function parameter, since every claim about the
  scorer concerns its gating/aggregation structure, which is independent
  of the numeric square-root values);
* the replay scheduler of `src/components/VideoAnalyzer.tsx`
  (`startReplay` / `stopReplay` / `toggleReplayPause` / the speed-button
  handler, plus the per-frame animation tick), embedded as a state
  machine over `ℚ` timestamps;
* the geometry module of `src/components/PoseOverlay.tsx`
  (`calcAngle`, `calcKyudoAngles`), embedded over `ℝ`.
-/

set_option linter.unusedVariables false

namespace AIKyudo

/-! ### Form scorer data model (VideoAnalyzer.tsx) -/

/-- One frame's derived metrics, as in `AngleData`/`FrameAngleData` of the
source (`frame` index plus eight `number | null` metrics).  `null` is
modelled as `none`. -/
structure FrameAngleData where
  frame : ℕ
  leftElbow : Option ℚ
  rightElbow : Option ℚ
  leftShoulder : Option ℚ
  rightShoulder : Option ℚ
  hipTilt : Option ℚ
  spineTilt : Option ℚ
  monomiAngle : Option ℚ
  kuchiwariOffset : Option ℚ
deriving DecidableEq

/-- Source `EvalItem` of VideoAnalyzer.tsx.  Scores are integers after
`Math.round`. -/
structure EvalItem where
  label : String
  score : ℤ
  comment : String
  detail : String
  ideal : String
deriving DecidableEq

/-- Source `FormEvaluation` of VideoAnalyzer.tsx. -/
structure FormEvaluation where
  total : ℤ
  rank : String
  items : List EvalItem
deriving DecidableEq

/-- Statistics helper `mean` of VideoAnalyzer.tsx: `v.length === 0 ? 0 :
v.reduce((a,b) => a+b, 0) / v.length`. -/
def mean (v : List ℚ) : ℚ :=
  if v.length = 0 then 0 else v.sum / v.length

/-- Statistics helper `stddev` of VideoAnalyzer.tsx (population variant, divide by N).
`Math.sqrt` is the supplied `sqrtQ` parameter. -/
def stddev (sqrtQ : ℚ → ℚ) (v : List ℚ) : ℚ :=
  if v.length < 2 then 0
  else sqrtQ ((v.map (fun b => (b - mean v) ^ 2)).sum / v.length)

/-- Helper `nn` of VideoAnalyzer.tsx: drop `null` entries. -/
def nn (v : List (Option ℚ)) : List ℚ := v.filterMap id

/-- Helper `clamp` of VideoAnalyzer.tsx:
`Math.min(hi, Math.max(lo, v))`. -/
def clamp (v lo hi : ℚ) : ℚ := min hi (max lo v)

/-- JavaScript `Math.round`: round half toward positive infinity,
`Math.round x = ⌊x + 1/2⌋`. -/
def jsRound (q : ℚ) : ℤ := ⌊q + 1 / 2⌋

/-- JavaScript `Math.max(...v)` over a nonempty spread (the source only applies it
under a nonemptiness guard; the `[]` case is arbitrary). -/
def listMax : List ℚ → ℚ
  | [] => 0
  | h :: t => t.foldl max h

/-- First `items.push` block of `evaluateForm` (VideoAnalyzer.tsx lines
54-63): left-elbow extension, gated on more than 5 valid samples. -/
def item1Of (sqrtQ : ℚ → ℚ) (frames : List FrameAngleData) : List EvalItem :=
  if 5 < (nn (frames.map (fun f => f.leftElbow))).length then
    let peak := listMax (nn (frames.map (fun f => f.leftElbow)))
    let score :=
      if 160 ≤ peak ∧ peak ≤ 172 then 100
      else if 150 ≤ peak ∧ peak < 160 then 60 + (peak - 150) * 4
      else if 172 < peak ∧ peak ≤ 178 then 100 - (peak - 172) * 10
      else if 178 < peak then 40
      else clamp ((peak - 120) * 2) 0 60
    [{ label := "押し手（左肘）の骨法", score := jsRound (clamp score 0 100),
       comment :=
         if 160 ≤ peak ∧ peak ≤ 172 then "✅ 押し手の骨法が正しく出ています"
         else if 178 < peak then "❌ 押し手が伸びすぎています（弦打ちリスク）"
         else if 172 < peak then "⚠️ 押し手がやや伸びすぎです"
         else if 150 ≤ peak then "⚠️ 押し手の伸びがやや不足です"
         else "❌ 押し手が大きく曲がっています",
       detail := "弓道教本：「肘を完全に伸ばしきると弓手肩が突っ張り、馬手肩が後ろに抜けやすくなる」",
       ideal := "会でのピーク角度 160〜172°" }]
  else []

/-- Second `items.push` block (lines 65-72): right-elbow settling over the
late half of the valid samples, gated on more than 5 valid samples. -/
def item2Of (sqrtQ : ℚ → ℚ) (frames : List FrameAngleData) : List EvalItem :=
  if 5 < (nn (frames.map (fun f => f.rightElbow))).length then
    let reVals := nn (frames.map (fun f => f.rightElbow))
    let avg := mean (reVals.drop (reVals.length / 2))
    let score :=
      if 80 ≤ avg ∧ avg ≤ 110 then 100
      else if 110 < avg ∧ avg ≤ 125 then 100 - (avg - 110) * 3
      else if 125 < avg then clamp (100 - (avg - 110) * 5) 0 55
      else clamp (80 + (avg - 70) * 2) 0 80
    [{ label := "馬手（右肘）の収まり", score := jsRound (clamp score 0 100),
       comment :=
         if 80 ≤ avg ∧ avg ≤ 110 then "✅ 馬手肘が正しく収まっています"
         else if 125 < avg then "❌ 馬手の前収まり。緩み離れのリスクがあります"
         else if 110 < avg then "⚠️ 馬手肘がやや前収まりです"
         else "⚠️ 引き分けを確認してください",
       detail := "理論弓道：「前収まりだとほぼ100%緩み離れになる」",
       ideal := "引き分け後半の肘角度 80〜110°" }]
  else []

/-- Third `items.push` block (lines 74-81): left/right symmetry, gated on
more than 5 valid samples of each shoulder metric. -/
def item3Of (sqrtQ : ℚ → ℚ) (frames : List FrameAngleData) : List EvalItem :=
  if 5 < (nn (frames.map (fun f => f.leftShoulder))).length ∧
      5 < (nn (frames.map (fun f => f.rightShoulder))).length then
    let lsVals := nn (frames.map (fun f => f.leftShoulder))
    let rsVals := nn (frames.map (fun f => f.rightShoulder))
    let diff := |mean lsVals - mean rsVals|
    let avgStab := (stddev sqrtQ lsVals + stddev sqrtQ rsVals) / 2
    let score := clamp (100 - diff * 3) 0 100 * (6 / 10)
      + clamp (100 - avgStab * 3) 0 100 * (4 / 10)
    [{ label := "引き分けの左右均等性", score := jsRound (clamp score 0 100),
       comment :=
         if diff ≤ 8 ∧ avgStab ≤ 10 then "✅ 左右均等な引き分けができています"
         else if diff ≤ 15 then "⚠️ わずかに左右差があります"
         else "❌ 左右差が大きいです",
       detail := "弓道教本：「胸の中筋から左右に開くように体を弓の中に割って入る」",
       ideal := "左右肩角度差 8° 以内" }]
  else []

/-- Fourth `items.push` block (lines 83-89): hip-line levelness, gated on
more than 5 valid samples. -/
def item4Of (sqrtQ : ℚ → ℚ) (frames : List FrameAngleData) : List EvalItem :=
  if 5 < (nn (frames.map (fun f => f.hipTilt))).length then
    let hipVals := nn (frames.map (fun f => f.hipTilt))
    let score := clamp (100 - mean hipVals * 9) 0 100 * (65 / 100)
      + clamp (100 - stddev sqrtQ hipVals * 6) 0 100 * (35 / 100)
    [{ label := "三重十文字（肩・腰ラインの水平性）", score := jsRound (clamp score 0 100),
       comment :=
         if mean hipVals ≤ 4 ∧ stddev sqrtQ hipVals ≤ 4 then "✅ 三重十文字が安定しています"
         else if mean hipVals ≤ 7 then "⚠️ わずかに傾きがあります"
         else if mean hipVals ≤ 13 then "❌ 傾きが目立ちます"
         else "❌ 三重十文字が大きく崩れています",
       detail := "弓道用語辞典：「足底・腰・肩の線が上から見たときに一枚になる状態」",
       ideal := "腰ライン傾き 4° 以内" }]
  else []

/-- Fifth `items.push` block (lines 91-97): spine verticality, gated on
more than 5 valid samples. -/
def item5Of (sqrtQ : ℚ → ℚ) (frames : List FrameAngleData) : List EvalItem :=
  if 5 < (nn (frames.map (fun f => f.spineTilt))).length then
    let spineVals := nn (frames.map (fun f => f.spineTilt))
    let score := clamp (100 - mean spineVals * 7) 0 100 * (65 / 100)
      + clamp (100 - stddev sqrtQ spineVals * 5) 0 100 * (35 / 100)
    [{ label := "胴造り（背筋の垂直性）", score := jsRound (clamp score 0 100),
       comment :=
         if mean spineVals ≤ 4 ∧ stddev sqrtQ spineVals ≤ 5 then "✅ 胴造りが正しく保たれています"
         else if mean spineVals ≤ 8 then "⚠️ やや「胴が入る・起きる」傾向があります"
         else if mean spineVals ≤ 14 then "❌ 胴の傾きが大きいです"
         else "❌ 胴造りが大きく崩れています",
       detail := "弓道教本：「重心を総体の中心に置き、前後左右に傾かない垂直な軸を作る」",
       ideal := "脊柱傾き 4° 以内" }]
  else []

/-- Sixth `items.push` block (lines 99-107): hold-phase stability, gated on
more than 5 samples in each late (from `⌊0.55·n⌋` on) elbow slice. -/
def item6Of (sqrtQ : ℚ → ℚ) (frames : List FrameAngleData) : List EvalItem :=
  if 5 < ((nn (frames.map (fun f => f.leftElbow))).drop
        ((nn (frames.map (fun f => f.leftElbow))).length * 55 / 100)).length ∧
      5 < ((nn (frames.map (fun f => f.rightElbow))).drop
        ((nn (frames.map (fun f => f.rightElbow))).length * 55 / 100)).length then
    let lateLE := (nn (frames.map (fun f => f.leftElbow))).drop
      ((nn (frames.map (fun f => f.leftElbow))).length * 55 / 100)
    let lateRE := (nn (frames.map (fun f => f.rightElbow))).drop
      ((nn (frames.map (fun f => f.rightElbow))).length * 55 / 100)
    let avgStd := (stddev sqrtQ lateLE + stddev sqrtQ lateRE) / 2
    let kaiSec := (frames.length : ℚ) / 30 * (33 / 100)
    let kaiBonus : ℚ := if 3 ≤ kaiSec then 0 else if 3 / 2 ≤ kaiSec then -10 else -25
    let score := clamp (100 - avgStd * 5 + kaiBonus) 0 100
    [{ label := "会の保持安定性（詰め合い・伸び合い）", score := jsRound (clamp score 0 100),
       comment :=
         if avgStd ≤ 4 ∧ kaiBonus = 0 then "✅ 会が充実しています"
         else if kaiBonus = -25 then "❌ 早気の可能性があります（会を3秒以上保ちましょう）"
         else if avgStd ≤ 9 then "⚠️ 会中にブレがあります"
         else "❌ 会が大きく不安定です",
       detail := "宇野範士（弓道教本）：「全力で十文字に伸び合う」。会3秒未満は早気の可能性（武道学研究）",
       ideal := "後半フレームの角度ブレ 4° 以内、推定会時間 3秒以上" }]
  else []

/-- Seventh `items.push` block (lines 109-115): draw smoothness over
successive left-elbow differences, gated on more than 10 valid samples. -/
def item7Of (sqrtQ : ℚ → ℚ) (frames : List FrameAngleData) : List EvalItem :=
  if 10 < (nn (frames.map (fun f => f.leftElbow))).length then
    let leVals := nn (frames.map (fun f => f.leftElbow))
    let deltas := (leVals.zip leVals.tail).map (fun p => |p.2 - p.1|)
    let score := clamp (100 - stddev sqrtQ deltas * 18 - max 0 (mean deltas - 3 / 2) * 10) 0 100
    [{ label := "引き分けの滑らかさ", score := jsRound (clamp score 0 100),
       comment :=
         if 82 ≤ score then "✅ 滑らかで均一な引き分けができています"
         else if 62 ≤ score then "⚠️ 引き分けにやや引っかかりがあります"
         else "❌ つかみ引きや途中止まりがないか確認しましょう",
       detail := "弓道教本：「遅速なく左右均等に引き分ける」",
       ideal := "フレーム間角度変化の標準偏差が小さいこと" }]
  else []

/-- Eighth `items.push` block (lines 117-127): head-rotation (monomi)
angle and stability over the late 70% slice, gated on more than 5 valid
samples.  The source's `!isNaN(avg) && !isNaN(std)` guard is identically
true in exact arithmetic and is dropped. -/
def item8Of (sqrtQ : ℚ → ℚ) (frames : List FrameAngleData) : List EvalItem :=
  if 5 < (nn (frames.map (fun f => f.monomiAngle))).length then
    let monomiVals := nn (frames.map (fun f => f.monomiAngle))
    let late := monomiVals.drop (monomiVals.length * 3 / 10)
    let avg := mean late
    let std := stddev sqrtQ late
    let aScore :=
      if 35 ≤ avg ∧ avg ≤ 55 then 100
      else if 25 ≤ avg ∧ avg < 35 then 60 + (avg - 25) * 4
      else if 55 < avg ∧ avg ≤ 68 then 100 - (avg - 55) * 4
      else if avg < 25 then clamp (avg * (12 / 5)) 0 60
      else clamp (100 - (avg - 55) * 6) 0 60
    let score := aScore * (65 / 100) + clamp (100 - std * 5) 0 100 * (35 / 100)
    [{ label := "物見（頭の向き・安定性）", score := jsRound (clamp score 0 100),
       comment :=
         if 35 ≤ avg ∧ avg ≤ 55 ∧ std ≤ 6 then "✅ 物見が正しい角度で安定しています"
         else if avg < 25 then "❌ 物見が浅すぎます（照的になりやすい）"
         else if avg < 35 then "⚠️ 物見がやや浅いです"
         else if 68 < avg then "⚠️ 物見が深すぎます"
         else if 10 < std then "⚠️ 物見が引き分け中にブレています"
         else "⚠️ 物見の角度を確認しましょう",
       detail := "弓道教本・弓道大学：「物見は45°程度が理想。浅い物見（照的）は矢所が定まらない原因」",
       ideal := "耳ライン・肩ライン角度差 35〜55°、ブレ 6° 以内" }]
  else []

/-- Ninth `items.push` block (lines 129-139): wrist-height (kuchiwari)
offset over the late half, gated on more than 5 valid samples.  The
`!isNaN` guard is dropped as in `item8Of`. -/
def item9Of (sqrtQ : ℚ → ℚ) (frames : List FrameAngleData) : List EvalItem :=
  if 5 < (nn (frames.map (fun f => f.kuchiwariOffset))).length then
    let kVals := nn (frames.map (fun f => f.kuchiwariOffset))
    let late := kVals.drop (kVals.length / 2)
    let avg := mean late
    let std := stddev sqrtQ late
    let pScore :=
      if -1 / 100 ≤ avg ∧ avg ≤ 3 / 100 then 100
      else if 3 / 100 < avg ∧ avg ≤ 7 / 100 then 100 - (avg - 3 / 100) * 1000
      else if avg < -1 / 100 ∧ -1 / 20 ≤ avg then 100 + (avg + 1 / 100) * 1000
      else clamp (50 - |avg| * 500) 0 50
    let score := pScore * (7 / 10) + clamp (100 - std * 1000) 0 100 * (3 / 10)
    [{ label := "口割（右手首の高さ）", score := jsRound (clamp score 0 100),
       comment :=
         if -1 / 100 ≤ avg ∧ avg ≤ 3 / 100 ∧ std ≤ 1 / 50 then "✅ 口割が正しい位置に安定しています"
         else if 1 / 20 < avg then "❌ 口割が低すぎます（矢が上に飛びやすい）"
         else if 3 / 100 < avg then "⚠️ 口割がやや低いです"
         else if avg < -1 / 20 then "❌ 口割が高すぎます（額付けの可能性）"
         else if avg < -1 / 100 then "⚠️ 口割がやや高いです"
         else if 1 / 50 < std then "⚠️ 口割が引き分け中にブレています"
         else "⚠️ 口割の位置を確認しましょう",
       detail := "弓道教本：「会における右手は口の高さに収まる。毎射一定に保つことで矢所が安定する」",
       ideal := "右手首が口の高さ ±2cm 程度（正規化座標差 -0.01〜+0.03）" }]
  else []

/-- All nine conditional `items.push` blocks of `evaluateForm`
(VideoAnalyzer.tsx lines 52-139), in push order. -/
def itemsOf (sqrtQ : ℚ → ℚ) (frames : List FrameAngleData) : List EvalItem :=
  item1Of sqrtQ frames ++ item2Of sqrtQ frames ++ item3Of sqrtQ frames ++
    item4Of sqrtQ frames ++ item5Of sqrtQ frames ++ item6Of sqrtQ frames ++
    item7Of sqrtQ frames ++ item8Of sqrtQ frames ++ item9Of sqrtQ frames

/-- Source `evaluateForm` of VideoAnalyzer.tsx: empty input and empty item list
both yield the neutral report; otherwise the total is
`Math.round(sum of item scores / item count)` and the rank is chosen by
the fixed bands 90/78/65/52/38. -/
def evaluateForm (sqrtQ : ℚ → ℚ) (frames : List FrameAngleData) : FormEvaluation :=
  if frames.length = 0 then { total := 0, rank := "—", items := [] }
  else
    let items := itemsOf sqrtQ frames
    if items.length = 0 then { total := 0, rank := "—", items := [] }
    else
      let total := jsRound ((items.map (fun it => (it.score : ℚ))).sum / items.length)
      let rank :=
        if 90 ≤ total then "四〜五段相当"
        else if 78 ≤ total then "三段相当"
        else if 65 ≤ total then "二段相当"
        else if 52 ≤ total then "初段相当"
        else if 38 ≤ total then "級位相当"
        else "要基礎練習"
      { total := total, rank := rank, items := items }

/-! ### Replay scheduler (VideoAnalyzer.tsx) -/

/-- Source `StoredFrame` of VideoAnalyzer.tsx (the stored landmark array is
irrelevant to the scheduler claims and is not modelled). -/
structure StoredFrame where
  frame : ℕ
  timeMs : ℚ
deriving DecidableEq

/-- The mutable closure variables of one `startReplay` call: the captured
`speed` argument and the loop-local `lastRealTime` / `lastFrameTime`.
A `ReplayState.session` of `some _` means `replayRafRef.current` holds a
scheduled animation-frame callback. -/
structure ReplaySession where
  speed : ℚ
  lastRealTime : Option ℚ
  lastFrameTime : ℚ
deriving DecidableEq

/-- The replay-relevant component state of VideoAnalyzer.tsx:
`isReplaying`, `replayPaused`(Ref), `replaySpeed`, `replayIdxRef`, and the
scheduled loop (if any). -/
structure ReplayState where
  isReplaying : Bool
  replayPaused : Bool
  replaySpeed : ℚ
  replayIdx : ℕ
  session : Option ReplaySession
deriving DecidableEq

/-- The frame-search loop body of the tick (VideoAnalyzer.tsx line 251):
`while (nextIdx < stored.length-1 && stored[nextIdx].timeMs <= lastFrameTime)
nextIdx++`, written with explicit fuel. `stored.length` fuel always
suffices, since the loop makes at most `stored.length - 1 - i` steps. -/
def advanceAux (stored : List StoredFrame) (t : ℚ) : ℕ → ℕ → ℕ
  | 0, i => i
  | fuel + 1, i =>
    if i < stored.length - 1 ∧ (stored.getD i ⟨0, 0⟩).timeMs ≤ t then
      advanceAux stored t fuel (i + 1)
    else i

/-- The frame-search `while` loop of the tick, started at index `i`. -/
def advance (stored : List StoredFrame) (t : ℚ) (i : ℕ) : ℕ :=
  advanceAux stored t stored.length i

/-- Source `stopReplay` of VideoAnalyzer.tsx: cancel the scheduled loop, clear
`isReplaying` and the paused flag. -/
def stopReplay (st : ReplayState) : ReplayState :=
  { st with session := none, isReplaying := false, replayPaused := false }

/-- Source `startReplay(startIdx, speed)` of VideoAnalyzer.tsx: no-op on an empty
buffer; otherwise cancel any previous loop, set the index, raise
`isReplaying`, clear the paused flag, and schedule a fresh loop whose
`lastRealTime` is `null` and whose `lastFrameTime` is
`stored[startIdx]?.timeMs ?? 0`. -/
def startReplay (stored : List StoredFrame) (startIdx : ℕ) (speed : ℚ)
    (st : ReplayState) : ReplayState :=
  if stored.length = 0 then st
  else
    { st with
      replayIdx := startIdx
      isReplaying := true
      replayPaused := false
      session := some
        { speed := speed
          lastRealTime := none
          lastFrameTime := ((stored.get? startIdx).map StoredFrame.timeMs).getD 0 } }

/-- Source `toggleReplayPause` of VideoAnalyzer.tsx. -/
def toggleReplayPause (st : ReplayState) : ReplayState :=
  { st with replayPaused := !st.replayPaused }

/-- One execution of the animation-frame callback `loop(now)` created by
`startReplay` (VideoAnalyzer.tsx lines 235-281).  When paused it only
reschedules; when the index is out of range it calls `stopReplay`;
otherwise it measures the real elapsed time since `lastRealTime`
(zero on the first run), advances the virtual timestamp by
`realElapsed * speed`, runs the frame-search loop, stores the new index,
and reschedules.  Video repositioning and canvas drawing are side
effects without influence on the scheduler state and are not modelled. -/
def tick (stored : List StoredFrame) (now : ℚ) (st : ReplayState) : ReplayState :=
  match st.session with
  | none => st
  | some s =>
    if st.replayPaused then st
    else if stored.length ≤ st.replayIdx then stopReplay st
    else
      let lastReal := s.lastRealTime.getD now
      let realElapsed := now - lastReal
      let lastFrameTime := s.lastFrameTime + realElapsed * s.speed
      let nextIdx := advance stored lastFrameTime st.replayIdx
      { st with
        replayIdx := nextIdx
        session := some
          { speed := s.speed
            lastRealTime := some now
            lastFrameTime := lastFrameTime } }

/-- The speed-button `onClick` handler (VideoAnalyzer.tsx lines 471-474):
`setReplaySpeed(s); if (isReplaying) startReplay(replayIdxRef.current, s)`. -/
def setSpeedClick (stored : List StoredFrame) (s : ℚ) (st : ReplayState) : ReplayState :=
  let st1 := { st with replaySpeed := s }
  if st1.isReplaying then startReplay stored st1.replayIdx s st1 else st1

/-- The initial replay state of a freshly mounted component. -/
def initReplayState : ReplayState :=
  { isReplaying := false, replayPaused := false, replaySpeed := 1, replayIdx := 0,
    session := none }

/-- Ten stored frames, 33 ms apart, starting at video time 0. -/
def stored10 : List StoredFrame :=
  [⟨0, 0⟩, ⟨1, 33⟩, ⟨2, 66⟩, ⟨3, 99⟩, ⟨4, 132⟩, ⟨5, 165⟩, ⟨6, 198⟩, ⟨7, 231⟩,
   ⟨8, 264⟩, ⟨9, 297⟩]

/-- Two stored frames at 0 ms and 33 ms. -/
def stored2 : List StoredFrame := [⟨0, 0⟩, ⟨1, 33⟩]

/-! ### Criterion-gating lemmas for the form scorer -/

/-- The report contains an item with label `L`. -/
def hasItem (items : List EvalItem) (L : String) : Prop :=
  ∃ it ∈ items, it.label = L

/-- A frame with no valid metrics (all `null`). -/
def noneFrame (n : ℕ) : FrameAngleData :=
  ⟨n, none, none, none, none, none, none, none, none⟩

/-- A frame with only a valid left-elbow angle. -/
def leFrame (n : ℕ) (v : ℚ) : FrameAngleData :=
  ⟨n, some v, none, none, none, none, none, none, none⟩

/-- One all-null frame. -/
def frames1 : List FrameAngleData := [noneFrame 0]

/-- Six frames with left elbow fixed at 165°. -/
def frames6 : List FrameAngleData :=
  [leFrame 0 165, leFrame 1 165, leFrame 2 165, leFrame 3 165, leFrame 4 165,
   leFrame 5 165]

/-- Seven frames with left elbow fixed at 165° (7 valid left-elbow samples,
which is more than 5 but not more than 10). -/
def frames7 : List FrameAngleData :=
  [leFrame 0 165, leFrame 1 165, leFrame 2 165, leFrame 3 165, leFrame 4 165,
   leFrame 5 165, leFrame 6 165]

/-- Three stored frames at 10 ms, 33 ms, 66 ms. -/
def stored3 : List StoredFrame := [⟨0, 10⟩, ⟨1, 33⟩, ⟨2, 66⟩]

/-! ### Geometry module (PoseOverlay.tsx) -/

/-- A 2D landmark point (only `x`/`y` are used by the geometry). -/
structure Pt where
  x : ℝ
  y : ℝ

/-- The vector `a − b` (the source's `ab`/`cb` construction). -/
def vsub (a b : Pt) : Pt := ⟨a.x - b.x, a.y - b.y⟩

/-- The source's `dot` expression. -/
def vdot (p q : Pt) : ℝ := p.x * q.x + p.y * q.y

/-- One factor of the source's `mag` expression. -/
noncomputable def vmag (p : Pt) : ℝ := Real.sqrt (p.x ^ 2 + p.y ^ 2)

/-- Uniform translation of a point, for the invariance property. -/
def translate (p t : Pt) : Pt := ⟨p.x + t.x, p.y + t.y⟩

/-- Source `calcAngle` of PoseOverlay.tsx (lines 100-107): the joint angle at
vertex `b`, via the clamped dot-product/arccosine formula; returns 0 when
`mag === 0`. -/
noncomputable def calcAngle (a b c : Pt) : ℝ :=
  if vmag (vsub a b) * vmag (vsub c b) = 0 then 0
  else
    Real.arccos (max (-1) (min 1
      (vdot (vsub a b) (vsub c b) / (vmag (vsub a b) * vmag (vsub c b))))) *
      (180 / Real.pi)

/-- Source `AngleData` of PoseOverlay.tsx over `ℝ` (geometry output). -/
structure AngleData where
  leftElbow : Option ℝ
  rightElbow : Option ℝ
  leftShoulder : Option ℝ
  rightShoulder : Option ℝ
  hipTilt : Option ℝ
  spineTilt : Option ℝ
  monomiAngle : Option ℝ
  kuchiwariOffset : Option ℝ

/-- JavaScript `Math.atan2(y, x)`: the argument of the complex number
`x + y·i`, in `(-π, π]`, with `atan2 0 0 = 0` — exactly `Complex.arg`. -/
noncomputable def atan2 (y x : ℝ) : ℝ := Complex.arg ⟨x, y⟩

/-- Source `calcKyudoAngles` of PoseOverlay.tsx (lines 110-213).  The landmark
array is a partial map from MediaPipe indices to points; each metric is
`null` unless all its required landmarks are present. -/
noncomputable def calcKyudoAngles (landmarks : ℕ → Option Pt) : AngleData :=
  { leftElbow :=
      match landmarks 11, landmarks 13, landmarks 15 with
      | some s, some e, some w => some (calcAngle s e w)
      | _, _, _ => none
    rightElbow :=
      match landmarks 12, landmarks 14, landmarks 16 with
      | some s, some e, some w => some (calcAngle s e w)
      | _, _, _ => none
    leftShoulder :=
      match landmarks 13, landmarks 11, landmarks 12 with
      | some e, some ls, some rs => some (calcAngle e ls rs)
      | _, _, _ => none
    rightShoulder :=
      match landmarks 11, landmarks 12, landmarks 14 with
      | some ls, some rs, some e => some (calcAngle ls rs e)
      | _, _, _ => none
    hipTilt :=
      match landmarks 23, landmarks 24 with
      | some lh, some rh => some |atan2 (rh.y - lh.y) (rh.x - lh.x) * (180 / Real.pi)|
      | _, _ => none
    spineTilt :=
      match landmarks 11, landmarks 12, landmarks 23, landmarks 24 with
      | some ls, some rs, some lh, some rh =>
        some |atan2 ((ls.x + rs.x) / 2 - (lh.x + rh.x) / 2)
          ((lh.y + rh.y) / 2 - (ls.y + rs.y) / 2) * (180 / Real.pi)|
      | _, _, _, _ => none
    monomiAngle :=
      match landmarks 7, landmarks 8, landmarks 11, landmarks 12 with
      | some lE, some rE, some lS, some rS =>
        let shoulderAngleRad := atan2 (rS.y - lS.y) (rS.x - lS.x)
        let earAngleRad := atan2 (rE.y - lE.y) (rE.x - lE.x)
        let diff0 := (earAngleRad - shoulderAngleRad) * (180 / Real.pi)
        let diff1 := if 180 < diff0 then diff0 - 360 else diff0
        some (if diff1 < -180 then diff1 + 360 else diff1)
      | _, _, _, _ => none
    kuchiwariOffset :=
      match landmarks 0, landmarks 16, landmarks 7, landmarks 8 with
      | some n, some w, some lE, some rE =>
        some (w.y - (n.y + ((lE.y + rE.y) / 2 - n.y) * (55 / 100)))
      | _, _, _, _ => none }

/-- A landmark set with both ears and both shoulders present. -/
noncomputable def lmW : ℕ → Option Pt := fun n =>
  if n = 7 then some ⟨0, 0⟩
  else if n = 8 then some ⟨1, 0⟩
  else if n = 11 then some ⟨0, 1⟩
  else if n = 12 then some ⟨1, 1⟩ else none

/-- A landmark set whose ear line points right (orientation 0) and whose
shoulder line points left (orientation π): the raw orientation difference
is exactly −180°. -/
noncomputable def lmCx : ℕ → Option Pt := fun n =>
  if n = 7 then some ⟨0, 0⟩
  else if n = 8 then some ⟨1, 0⟩
  else if n = 11 then some ⟨1, 1 / 2⟩
  else if n = 12 then some ⟨0, 1 / 2⟩ else none

/-! ### Lemmas and claim theorems -/

/-- The report's item list is always exactly the list of criterion items
that passed their gates. -/
theorem evaluateForm_items (sqrtQ : ℚ → ℚ) (frames : List FrameAngleData) :
    (evaluateForm sqrtQ frames).items = itemsOf sqrtQ frames := by
  unfold evaluateForm
  by_cases h0 : frames.length = 0
  · rw [if_pos h0]
    have hf : frames = [] := List.length_eq_zero.mp h0
    subst hf
    rfl
  · rw [if_neg h0]
    by_cases h1 : (itemsOf sqrtQ frames).length = 0
    · rw [if_pos h1]
      exact (List.length_eq_zero.mp h1).symm
    · rw [if_neg h1]

/-- C6: evaluating the empty sequence yields total 0, the unrated rank
tier `—`, and an empty item list (and, being a total Lean function,
never raises). -/
theorem c6_empty_input_neutral (sqrtQ : ℚ → ℚ) :
    evaluateForm sqrtQ [] = { total := 0, rank := "—", items := [] } := rfl

/-- The frame-search loop never moves the index backward. -/
theorem advanceAux_ge (stored : List StoredFrame) (t : ℚ) :
    ∀ fuel i, i ≤ advanceAux stored t fuel i := by
  intro fuel
  induction fuel with
  | zero => intro i; simp [advanceAux]
  | succ n ih =>
    intro i
    simp only [advanceAux]
    split
    · exact le_trans (Nat.le_succ i) (ih (i + 1))
    · exact le_refl i

/-- Started in range, the frame-search loop never leaves
`[0, stored.length - 1]`. -/
theorem advanceAux_le (stored : List StoredFrame) (t : ℚ) :
    ∀ fuel i, i < stored.length → advanceAux stored t fuel i ≤ stored.length - 1 := by
  intro fuel
  induction fuel with
  | zero => intro i hi; simp only [advanceAux]; omega
  | succ n ih =>
    intro i hi
    simp only [advanceAux]
    split
    case isTrue h => exact ih (i + 1) (by omega)
    case isFalse h => omega

/-- Every index the frame-search loop skips over has a timestamp at or
below the virtual timestamp. -/
theorem advanceAux_below (stored : List StoredFrame) (t : ℚ) :
    ∀ fuel i j, i ≤ j → j < advanceAux stored t fuel i →
      (stored.getD j ⟨0, 0⟩).timeMs ≤ t := by
  intro fuel
  induction fuel with
  | zero => intro i j hij hlt; simp only [advanceAux] at hlt; omega
  | succ n ih =>
    intro i j hij hlt
    simp only [advanceAux] at hlt
    split at hlt
    case isTrue h =>
      rcases Nat.eq_or_lt_of_le hij with rfl | hij'
      · exact h.2
      · exact ih (i + 1) j hij' hlt
    case isFalse h => omega

/-- With enough fuel (the loop makes at most `stored.length - 1 - i`
steps), the loop stops either at the last index or at the first index
whose timestamp exceeds the virtual timestamp. -/
theorem advanceAux_stop (stored : List StoredFrame) (t : ℚ) :
    ∀ fuel i, stored.length - 1 - i ≤ fuel →
      advanceAux stored t fuel i < stored.length - 1 →
      ¬(stored.getD (advanceAux stored t fuel i) ⟨0, 0⟩).timeMs ≤ t := by
  intro fuel
  induction fuel with
  | zero => intro i hfuel hlt; simp only [advanceAux] at hlt ⊢; omega
  | succ n ih =>
    intro i hfuel hlt
    simp only [advanceAux] at hlt ⊢
    split at hlt
    case isTrue h =>
      rw [if_pos h]
      exact ih (i + 1) (by omega) hlt
    case isFalse h =>
      rw [if_neg h]
      exact fun hts => h ⟨hlt, hts⟩

/-- Lemma: `advance` never moves the index backward. -/
theorem advance_ge (stored : List StoredFrame) (t : ℚ) (i : ℕ) :
    i ≤ advance stored t i := advanceAux_ge stored t stored.length i

/-- Lemma: `advance` caps the index at `stored.length - 1`. -/
theorem advance_le (stored : List StoredFrame) (t : ℚ) (i : ℕ)
    (hi : i < stored.length) : advance stored t i ≤ stored.length - 1 :=
  advanceAux_le stored t stored.length i hi

/-- Every index `advance` skips over has a timestamp at or below the
virtual timestamp. -/
theorem advance_below (stored : List StoredFrame) (t : ℚ) (i j : ℕ)
    (hij : i ≤ j) (hlt : j < advance stored t i) :
    (stored.getD j ⟨0, 0⟩).timeMs ≤ t :=
  advanceAux_below stored t stored.length i j hij hlt

/-- If `advance` stops strictly before the last index, the frame it
stops at has a timestamp exceeding the virtual timestamp. -/
theorem advance_stop (stored : List StoredFrame) (t : ℚ) (i : ℕ)
    (h : advance stored t i < stored.length - 1) :
    ¬(stored.getD (advance stored t i) ⟨0, 0⟩).timeMs ≤ t :=
  advanceAux_stop stored t stored.length i (by omega) h

/-- Evaluation rule for `advance`: the result is the unique `k ≥ i` (capped
at the last index) below which all timestamps are at or below `t` and which
itself exceeds `t` unless it is the last index. -/
theorem advance_eval (stored : List StoredFrame) (t : ℚ) (i k : ℕ)
    (hik : i ≤ k) (hi : i < stored.length) (hk : k ≤ stored.length - 1)
    (hbelow : ∀ j, i ≤ j → j < k → (stored.getD j ⟨0, 0⟩).timeMs ≤ t)
    (hstop : k < stored.length - 1 → ¬(stored.getD k ⟨0, 0⟩).timeMs ≤ t) :
    advance stored t i = k := by
  rcases lt_trichotomy (advance stored t i) k with h | h | h
  · exact absurd (hbelow _ (advance_ge stored t i) h)
      (advance_stop stored t i (lt_of_lt_of_le h hk))
  · exact h
  · exact absurd (advance_below stored t i k hik h)
      (hstop (lt_of_lt_of_le h (advance_le stored t i hi)))

/-- C1: the claim fails on the code.  Start replay on a 10-frame, 33 ms
buffer at speed 1; after ticks at 1000 ms and 1016 ms the index is 1;
pause; a tick arrives while paused; resume; the very next tick (at
11016 ms, i.e. 10 s of real time after the last pre-pause tick) jumps the
index from 1 straight to 9, because the paused branch of the loop never
refreshes `lastRealTime`, so the first unpaused tick counts the whole
paused interval as elapsed time and the scheduler catches up. -/
theorem c1_pause_resume_catches_up :
    (let s0 := startReplay stored10 0 1 initReplayState
     let s1 := tick stored10 1000 s0
     let s2 := tick stored10 1016 s1
     let p1 := toggleReplayPause s2
     let p2 := tick stored10 9000 p1
     let r1 := toggleReplayPause p2
     let s3 := tick stored10 11016 r1
     s2.replayIdx = 1 ∧ p2.replayIdx = 1 ∧ s3.replayIdx = 9) := by
  have ha1 : advance stored10 0 0 = 1 := by
    apply advance_eval
    · omega
    · norm_num [stored10]
    · norm_num [stored10]
    · intro j h1 h2
      interval_cases j
      norm_num [stored10]
    · norm_num [stored10]
  have ha2 : advance stored10 16 1 = 1 := by
    apply advance_eval
    · omega
    · norm_num [stored10]
    · norm_num [stored10]
    · intro j h1 h2
      omega
    · norm_num [stored10]
  have ha3 : advance stored10 10016 1 = 9 := by
    apply advance_eval
    · omega
    · norm_num [stored10]
    · norm_num [stored10]
    · intro j h1 h2
      interval_cases j <;> norm_num [stored10]
    · norm_num [stored10]
  have hl : stored10.length = 10 := by norm_num [stored10]
  have hs0 : startReplay stored10 0 1 initReplayState =
      ⟨true, false, 1, 0, some ⟨1, none, 0⟩⟩ := by
    norm_num [startReplay, stored10, initReplayState]
  have hs1 : tick stored10 1000 (⟨true, false, 1, 0, some ⟨1, none, 0⟩⟩ : ReplayState) =
      ⟨true, false, 1, 1, some ⟨1, some 1000, 0⟩⟩ := by
    norm_num [tick, hl, ha1]
  have hs2 : tick stored10 1016 (⟨true, false, 1, 1, some ⟨1, some 1000, 0⟩⟩ : ReplayState) =
      ⟨true, false, 1, 1, some ⟨1, some 1016, 16⟩⟩ := by
    norm_num [tick, hl, ha2]
  have hp1 : toggleReplayPause (⟨true, false, 1, 1, some ⟨1, some 1016, 16⟩⟩ : ReplayState) =
      ⟨true, true, 1, 1, some ⟨1, some 1016, 16⟩⟩ := by
    norm_num [toggleReplayPause]
  have hp2 : tick stored10 9000 (⟨true, true, 1, 1, some ⟨1, some 1016, 16⟩⟩ : ReplayState) =
      ⟨true, true, 1, 1, some ⟨1, some 1016, 16⟩⟩ := by
    norm_num [tick]
  have hr1 : toggleReplayPause (⟨true, true, 1, 1, some ⟨1, some 1016, 16⟩⟩ : ReplayState) =
      ⟨true, false, 1, 1, some ⟨1, some 1016, 16⟩⟩ := by
    norm_num [toggleReplayPause]
  have hs3 : tick stored10 11016 (⟨true, false, 1, 1, some ⟨1, some 1016, 16⟩⟩ : ReplayState) =
      ⟨true, false, 1, 9, some ⟨1, some 11016, 10016⟩⟩ := by
    norm_num [tick, hl, ha3]
  simp [hs0, hs1, hs2, hp1, hp2, hr1, hs3]

/-- C2: the claim fails on the code.  On a two-frame buffer the first
tick already moves the index to the last frame (`stored.length - 1`),
yet subsequent ticks keep the loop scheduled (`session` stays `some _`)
and `isReplaying` stays true forever: the guard `idx >= stored.length`
can never fire, because the frame-search loop caps the index at
`stored.length - 1`.  The scheduler therefore never transitions to idle
at the end of the buffer. -/
theorem c2_never_stops_at_last_frame :
    (let s0 := startReplay stored2 0 1 initReplayState
     let s1 := tick stored2 100 s0
     let s2 := tick stored2 200 s1
     let s3 := tick stored2 300 s2
     s1.replayIdx = stored2.length - 1 ∧
     s2.isReplaying = true ∧ s2.session.isSome = true ∧ s2.replayIdx = stored2.length - 1 ∧
     s3.isReplaying = true ∧ s3.session.isSome = true ∧ s3.replayIdx = stored2.length - 1) := by
  have ha1 : advance stored2 0 0 = 1 := by
    apply advance_eval
    · omega
    · norm_num [stored2]
    · norm_num [stored2]
    · intro j h1 h2
      interval_cases j
      norm_num [stored2]
    · norm_num [stored2]
  have ha2 : advance stored2 100 1 = 1 := by
    apply advance_eval
    · omega
    · norm_num [stored2]
    · norm_num [stored2]
    · intro j h1 h2
      omega
    · norm_num [stored2]
  have ha3 : advance stored2 200 1 = 1 := by
    apply advance_eval
    · omega
    · norm_num [stored2]
    · norm_num [stored2]
    · intro j h1 h2
      omega
    · norm_num [stored2]
  have hl : stored2.length = 2 := by norm_num [stored2]
  have hs0 : startReplay stored2 0 1 initReplayState =
      ⟨true, false, 1, 0, some ⟨1, none, 0⟩⟩ := by
    norm_num [startReplay, stored2, initReplayState]
  have hs1 : tick stored2 100 (⟨true, false, 1, 0, some ⟨1, none, 0⟩⟩ : ReplayState) =
      ⟨true, false, 1, 1, some ⟨1, some 100, 0⟩⟩ := by
    norm_num [tick, hl, ha1]
  have hs2 : tick stored2 200 (⟨true, false, 1, 1, some ⟨1, some 100, 0⟩⟩ : ReplayState) =
      ⟨true, false, 1, 1, some ⟨1, some 200, 100⟩⟩ := by
    norm_num [tick, hl, ha2]
  have hs3 : tick stored2 300 (⟨true, false, 1, 1, some ⟨1, some 200, 100⟩⟩ : ReplayState) =
      ⟨true, false, 1, 1, some ⟨1, some 300, 200⟩⟩ := by
    norm_num [tick, hl, ha3]
  simp [hs0, hs1, hs2, hs3, hl]

theorem hasItem_append (l1 l2 : List EvalItem) (L : String) :
    hasItem (l1 ++ l2) L ↔ hasItem l1 L ∨ hasItem l2 L := by
  simp [hasItem, List.mem_append, or_and_right, exists_or]

theorem hasItem_item1Of (sqrtQ : ℚ → ℚ) (frames : List FrameAngleData) (L : String) :
    hasItem (item1Of sqrtQ frames) L ↔
      (5 < (nn (frames.map (fun f => f.leftElbow))).length ∧ L = "押し手（左肘）の骨法") := by
  unfold item1Of hasItem
  split
  case isTrue h => simp [h, eq_comm]
  case isFalse h => simp [h]

theorem hasItem_item2Of (sqrtQ : ℚ → ℚ) (frames : List FrameAngleData) (L : String) :
    hasItem (item2Of sqrtQ frames) L ↔
      (5 < (nn (frames.map (fun f => f.rightElbow))).length ∧ L = "馬手（右肘）の収まり") := by
  unfold item2Of hasItem
  split
  case isTrue h => simp [h, eq_comm]
  case isFalse h => simp [h]

theorem hasItem_item3Of (sqrtQ : ℚ → ℚ) (frames : List FrameAngleData) (L : String) :
    hasItem (item3Of sqrtQ frames) L ↔
      ((5 < (nn (frames.map (fun f => f.leftShoulder))).length ∧
        5 < (nn (frames.map (fun f => f.rightShoulder))).length) ∧
       L = "引き分けの左右均等性") := by
  unfold item3Of hasItem
  split
  case isTrue h => simp [h, eq_comm]
  case isFalse h => simp [h]

theorem hasItem_item4Of (sqrtQ : ℚ → ℚ) (frames : List FrameAngleData) (L : String) :
    hasItem (item4Of sqrtQ frames) L ↔
      (5 < (nn (frames.map (fun f => f.hipTilt))).length ∧
       L = "三重十文字（肩・腰ラインの水平性）") := by
  unfold item4Of hasItem
  split
  case isTrue h => simp [h, eq_comm]
  case isFalse h => simp [h]

theorem hasItem_item5Of (sqrtQ : ℚ → ℚ) (frames : List FrameAngleData) (L : String) :
    hasItem (item5Of sqrtQ frames) L ↔
      (5 < (nn (frames.map (fun f => f.spineTilt))).length ∧
       L = "胴造り（背筋の垂直性）") := by
  unfold item5Of hasItem
  split
  case isTrue h => simp [h, eq_comm]
  case isFalse h => simp [h]

theorem hasItem_item6Of (sqrtQ : ℚ → ℚ) (frames : List FrameAngleData) (L : String) :
    hasItem (item6Of sqrtQ frames) L ↔
      ((5 < ((nn (frames.map (fun f => f.leftElbow))).drop
          ((nn (frames.map (fun f => f.leftElbow))).length * 55 / 100)).length ∧
        5 < ((nn (frames.map (fun f => f.rightElbow))).drop
          ((nn (frames.map (fun f => f.rightElbow))).length * 55 / 100)).length) ∧
       L = "会の保持安定性（詰め合い・伸び合い）") := by
  unfold item6Of hasItem
  split
  case isTrue h =>
    simp only [List.length_drop] at h
    simp [h, eq_comm]
  case isFalse h =>
    simp only [List.length_drop] at h
    simp [h]

theorem hasItem_item7Of (sqrtQ : ℚ → ℚ) (frames : List FrameAngleData) (L : String) :
    hasItem (item7Of sqrtQ frames) L ↔
      (10 < (nn (frames.map (fun f => f.leftElbow))).length ∧
       L = "引き分けの滑らかさ") := by
  unfold item7Of hasItem
  split
  case isTrue h => simp [h, eq_comm]
  case isFalse h => simp [h]

theorem hasItem_item8Of (sqrtQ : ℚ → ℚ) (frames : List FrameAngleData) (L : String) :
    hasItem (item8Of sqrtQ frames) L ↔
      (5 < (nn (frames.map (fun f => f.monomiAngle))).length ∧
       L = "物見（頭の向き・安定性）") := by
  unfold item8Of hasItem
  split
  case isTrue h => simp [h, eq_comm]
  case isFalse h => simp [h]

theorem hasItem_item9Of (sqrtQ : ℚ → ℚ) (frames : List FrameAngleData) (L : String) :
    hasItem (item9Of sqrtQ frames) L ↔
      (5 < (nn (frames.map (fun f => f.kuchiwariOffset))).length ∧
       L = "口割（右手首の高さ）") := by
  unfold item9Of hasItem
  split
  case isTrue h => simp [h, eq_comm]
  case isFalse h => simp [h]

theorem item1Of_len (sqrtQ : ℚ → ℚ) (frames : List FrameAngleData)
    (h : 5 < (nn (frames.map (fun f => f.leftElbow))).length) :
    (item1Of sqrtQ frames).length = 1 := by
  rw [item1Of, if_pos h]
  rfl

theorem item1Of_nil (sqrtQ : ℚ → ℚ) (frames : List FrameAngleData)
    (h : ¬5 < (nn (frames.map (fun f => f.leftElbow))).length) :
    item1Of sqrtQ frames = [] := by
  rw [item1Of, if_neg h]

theorem item2Of_nil (sqrtQ : ℚ → ℚ) (frames : List FrameAngleData)
    (h : ¬5 < (nn (frames.map (fun f => f.rightElbow))).length) :
    item2Of sqrtQ frames = [] := by
  rw [item2Of, if_neg h]

theorem item3Of_nil (sqrtQ : ℚ → ℚ) (frames : List FrameAngleData)
    (h : ¬(5 < (nn (frames.map (fun f => f.leftShoulder))).length ∧
      5 < (nn (frames.map (fun f => f.rightShoulder))).length)) :
    item3Of sqrtQ frames = [] := by
  rw [item3Of, if_neg h]

theorem item4Of_nil (sqrtQ : ℚ → ℚ) (frames : List FrameAngleData)
    (h : ¬5 < (nn (frames.map (fun f => f.hipTilt))).length) :
    item4Of sqrtQ frames = [] := by
  rw [item4Of, if_neg h]

theorem item5Of_nil (sqrtQ : ℚ → ℚ) (frames : List FrameAngleData)
    (h : ¬5 < (nn (frames.map (fun f => f.spineTilt))).length) :
    item5Of sqrtQ frames = [] := by
  rw [item5Of, if_neg h]

theorem item6Of_nil (sqrtQ : ℚ → ℚ) (frames : List FrameAngleData)
    (h : ¬(5 < ((nn (frames.map (fun f => f.leftElbow))).drop
        ((nn (frames.map (fun f => f.leftElbow))).length * 55 / 100)).length ∧
      5 < ((nn (frames.map (fun f => f.rightElbow))).drop
        ((nn (frames.map (fun f => f.rightElbow))).length * 55 / 100)).length)) :
    item6Of sqrtQ frames = [] := by
  rw [item6Of, if_neg h]

theorem item7Of_nil (sqrtQ : ℚ → ℚ) (frames : List FrameAngleData)
    (h : ¬10 < (nn (frames.map (fun f => f.leftElbow))).length) :
    item7Of sqrtQ frames = [] := by
  rw [item7Of, if_neg h]

theorem item8Of_nil (sqrtQ : ℚ → ℚ) (frames : List FrameAngleData)
    (h : ¬5 < (nn (frames.map (fun f => f.monomiAngle))).length) :
    item8Of sqrtQ frames = [] := by
  rw [item8Of, if_neg h]

theorem item9Of_nil (sqrtQ : ℚ → ℚ) (frames : List FrameAngleData)
    (h : ¬5 < (nn (frames.map (fun f => f.kuchiwariOffset))).length) :
    item9Of sqrtQ frames = [] := by
  rw [item9Of, if_neg h]

/-- C3 (amended): each criterion's item appears in the report exactly when
its own gate holds.  Seven of the nine criteria are gated on more than 5
valid samples of their required metric(s); draw smoothness is gated on
more than 10 valid left-elbow samples; hold-phase stability is gated on
more than 5 samples in each late (from index `⌊0.55·n⌋` on) slice of the
valid left- and right-elbow sequences. -/
theorem c3_criterion_gates (sqrtQ : ℚ → ℚ) (frames : List FrameAngleData) :
    (hasItem (evaluateForm sqrtQ frames).items "押し手（左肘）の骨法" ↔
      5 < (nn (frames.map (fun f => f.leftElbow))).length) ∧
    (hasItem (evaluateForm sqrtQ frames).items "馬手（右肘）の収まり" ↔
      5 < (nn (frames.map (fun f => f.rightElbow))).length) ∧
    (hasItem (evaluateForm sqrtQ frames).items "引き分けの左右均等性" ↔
      5 < (nn (frames.map (fun f => f.leftShoulder))).length ∧
      5 < (nn (frames.map (fun f => f.rightShoulder))).length) ∧
    (hasItem (evaluateForm sqrtQ frames).items "三重十文字（肩・腰ラインの水平性）" ↔
      5 < (nn (frames.map (fun f => f.hipTilt))).length) ∧
    (hasItem (evaluateForm sqrtQ frames).items "胴造り（背筋の垂直性）" ↔
      5 < (nn (frames.map (fun f => f.spineTilt))).length) ∧
    (hasItem (evaluateForm sqrtQ frames).items "会の保持安定性（詰め合い・伸び合い）" ↔
      5 < ((nn (frames.map (fun f => f.leftElbow))).drop
        ((nn (frames.map (fun f => f.leftElbow))).length * 55 / 100)).length ∧
      5 < ((nn (frames.map (fun f => f.rightElbow))).drop
        ((nn (frames.map (fun f => f.rightElbow))).length * 55 / 100)).length) ∧
    (hasItem (evaluateForm sqrtQ frames).items "引き分けの滑らかさ" ↔
      10 < (nn (frames.map (fun f => f.leftElbow))).length) ∧
    (hasItem (evaluateForm sqrtQ frames).items "物見（頭の向き・安定性）" ↔
      5 < (nn (frames.map (fun f => f.monomiAngle))).length) ∧
    (hasItem (evaluateForm sqrtQ frames).items "口割（右手首の高さ）" ↔
      5 < (nn (frames.map (fun f => f.kuchiwariOffset))).length) := by
  refine ⟨?_, ?_, ?_, ?_, ?_, ?_, ?_, ?_, ?_⟩ <;>
    simp [evaluateForm_items, itemsOf, hasItem_append, hasItem_item1Of,
      hasItem_item2Of, hasItem_item3Of, hasItem_item4Of, hasItem_item5Of,
      hasItem_item6Of, hasItem_item7Of, hasItem_item8Of, hasItem_item9Of]

/-- C3 (counterexample): on seven frames whose left elbow is always valid,
the left-elbow metric has 7 > 5 valid samples, yet the draw-smoothness
criterion — whose only required metric is the left elbow — is omitted from
the report, because its actual gate is `> 10` valid samples, not `> 5`. -/
theorem c3_counterexample :
    5 < (nn (frames7.map (fun f => f.leftElbow))).length ∧
    ¬hasItem (evaluateForm (fun q => q) frames7).items "引き分けの滑らかさ" := by
  constructor
  · norm_num [frames7, leFrame, nn, List.filterMap_cons]
  · rw [evaluateForm_items]
    simp [itemsOf, hasItem_append, hasItem_item1Of, hasItem_item2Of,
      hasItem_item3Of, hasItem_item4Of, hasItem_item5Of, hasItem_item6Of,
      hasItem_item7Of, hasItem_item8Of, hasItem_item9Of]
    norm_num [frames7, leFrame, nn, List.filterMap_cons]

/-- JavaScript `Math.round` returns a nearest integer: it differs from its argument
by at most 1/2. -/
theorem jsRound_close (q : ℚ) : |(jsRound q : ℚ) - q| ≤ 1 / 2 := by
  rw [jsRound, abs_le]
  constructor
  · have h := Int.lt_floor_add_one (q + 1 / 2)
    push_cast at h ⊢
    linarith
  · have h := Int.floor_le (q + 1 / 2)
    push_cast at h ⊢
    linarith

/-- C5: whenever the report has at least one item, its overall score is
the unweighted mean of the item scores rounded to a nearest integer
(JavaScript `Math.round`, i.e. `⌊mean + 1/2⌋`, within 1/2 of the mean),
and the rank is chosen purely by the fixed bands ≥90, ≥78, ≥65, ≥52,
≥38, else the lowest tier. -/
theorem c5_total_and_rank (sqrtQ : ℚ → ℚ) (frames : List FrameAngleData)
    (h : (evaluateForm sqrtQ frames).items ≠ []) :
    (evaluateForm sqrtQ frames).total =
      jsRound (((evaluateForm sqrtQ frames).items.map (fun it => (it.score : ℚ))).sum /
        (evaluateForm sqrtQ frames).items.length) ∧
    |((evaluateForm sqrtQ frames).total : ℚ) -
      ((evaluateForm sqrtQ frames).items.map (fun it => (it.score : ℚ))).sum /
        (evaluateForm sqrtQ frames).items.length| ≤ 1 / 2 ∧
    (evaluateForm sqrtQ frames).rank =
      (if 90 ≤ (evaluateForm sqrtQ frames).total then "四〜五段相当"
       else if 78 ≤ (evaluateForm sqrtQ frames).total then "三段相当"
       else if 65 ≤ (evaluateForm sqrtQ frames).total then "二段相当"
       else if 52 ≤ (evaluateForm sqrtQ frames).total then "初段相当"
       else if 38 ≤ (evaluateForm sqrtQ frames).total then "級位相当"
       else "要基礎練習") := by
  by_cases h0 : frames.length = 0
  · exfalso
    apply h
    unfold evaluateForm
    rw [if_pos h0]
  · by_cases h1 : (itemsOf sqrtQ frames).length = 0
    · exfalso
      apply h
      unfold evaluateForm
      rw [if_neg h0]
      simp only [h1, if_pos]
    · have hev : evaluateForm sqrtQ frames =
          { total := jsRound (((itemsOf sqrtQ frames).map (fun it => (it.score : ℚ))).sum /
              (itemsOf sqrtQ frames).length)
            rank :=
              if 90 ≤ jsRound (((itemsOf sqrtQ frames).map (fun it => (it.score : ℚ))).sum /
                  (itemsOf sqrtQ frames).length) then "四〜五段相当"
              else if 78 ≤ jsRound (((itemsOf sqrtQ frames).map (fun it => (it.score : ℚ))).sum /
                  (itemsOf sqrtQ frames).length) then "三段相当"
              else if 65 ≤ jsRound (((itemsOf sqrtQ frames).map (fun it => (it.score : ℚ))).sum /
                  (itemsOf sqrtQ frames).length) then "二段相当"
              else if 52 ≤ jsRound (((itemsOf sqrtQ frames).map (fun it => (it.score : ℚ))).sum /
                  (itemsOf sqrtQ frames).length) then "初段相当"
              else if 38 ≤ jsRound (((itemsOf sqrtQ frames).map (fun it => (it.score : ℚ))).sum /
                  (itemsOf sqrtQ frames).length) then "級位相当"
              else "要基礎練習"
            items := itemsOf sqrtQ frames } := by
        unfold evaluateForm
        rw [if_neg h0, if_neg h1]
      rw [hev]
      exact ⟨rfl, jsRound_close _, rfl⟩

/-- The six-frame left-elbow input produces a nonempty report. -/
theorem frames6_items_ne_nil :
    (evaluateForm (fun q => q) frames6).items ≠ [] := by
  have hcond : 5 < (nn (frames6.map (fun f => f.leftElbow))).length := by
    norm_num [frames6, leFrame, nn, List.filterMap_cons]
  have h1 := item1Of_len (fun q => q) frames6 hcond
  intro hnil
  rw [evaluateForm_items, itemsOf] at hnil
  simp only [List.append_eq_nil] at hnil
  rw [hnil.1.1.1.1.1.1.1.1] at h1
  simp at h1

/-- C5 (witness): the six-frame left-elbow input has a nonempty item
list, and the theorem applies to it. -/
theorem c5_total_and_rank_witness :
    (evaluateForm (fun q => q) frames6).items ≠ [] ∧
    ((evaluateForm (fun q => q) frames6).total =
      jsRound (((evaluateForm (fun q => q) frames6).items.map (fun it => (it.score : ℚ))).sum /
        (evaluateForm (fun q => q) frames6).items.length) ∧
    |((evaluateForm (fun q => q) frames6).total : ℚ) -
      ((evaluateForm (fun q => q) frames6).items.map (fun it => (it.score : ℚ))).sum /
        (evaluateForm (fun q => q) frames6).items.length| ≤ 1 / 2 ∧
    (evaluateForm (fun q => q) frames6).rank =
      (if 90 ≤ (evaluateForm (fun q => q) frames6).total then "四〜五段相当"
       else if 78 ≤ (evaluateForm (fun q => q) frames6).total then "三段相当"
       else if 65 ≤ (evaluateForm (fun q => q) frames6).total then "二段相当"
       else if 52 ≤ (evaluateForm (fun q => q) frames6).total then "初段相当"
       else if 38 ≤ (evaluateForm (fun q => q) frames6).total then "級位相当"
       else "要基礎練習")) :=
  ⟨frames6_items_ne_nil, c5_total_and_rank (fun q => q) frames6 frames6_items_ne_nil⟩

/-- C10: a non-empty input for which no criterion passes its gate (so no
items are produced) yields exactly the neutral report — total 0, rank
`—`, empty items — the same as for empty input. -/
theorem c10_no_items_neutral (sqrtQ : ℚ → ℚ) (frames : List FrameAngleData)
    (h1 : frames ≠ []) (h2 : (evaluateForm sqrtQ frames).items = []) :
    evaluateForm sqrtQ frames = { total := 0, rank := "—", items := [] } := by
  have h0 : ¬frames.length = 0 := fun hc => h1 (List.length_eq_zero.mp hc)
  rw [evaluateForm_items] at h2
  unfold evaluateForm
  rw [if_neg h0]
  simp only [h2]
  rfl

/-- The all-null single frame passes no gate. -/
theorem frames1_items_nil :
    (evaluateForm (fun q => q) frames1).items = [] := by
  rw [evaluateForm_items, itemsOf,
    item1Of_nil _ _ (by norm_num [frames1, noneFrame, nn, List.filterMap_cons]),
    item2Of_nil _ _ (by norm_num [frames1, noneFrame, nn, List.filterMap_cons]),
    item3Of_nil _ _ (by norm_num [frames1, noneFrame, nn, List.filterMap_cons]),
    item4Of_nil _ _ (by norm_num [frames1, noneFrame, nn, List.filterMap_cons]),
    item5Of_nil _ _ (by norm_num [frames1, noneFrame, nn, List.filterMap_cons]),
    item6Of_nil _ _ (by norm_num [frames1, noneFrame, nn, List.filterMap_cons]),
    item7Of_nil _ _ (by norm_num [frames1, noneFrame, nn, List.filterMap_cons]),
    item8Of_nil _ _ (by norm_num [frames1, noneFrame, nn, List.filterMap_cons]),
    item9Of_nil _ _ (by norm_num [frames1, noneFrame, nn, List.filterMap_cons])]
  rfl

/-- C10 (witness): the single all-null frame is a non-empty input with no
items, and the theorem applies to it. -/
theorem c10_no_items_neutral_witness :
    frames1 ≠ [] ∧ (evaluateForm (fun q => q) frames1).items = [] ∧
    evaluateForm (fun q => q) frames1 = { total := 0, rank := "—", items := [] } :=
  ⟨by simp [frames1], frames1_items_nil,
    c10_no_items_neutral (fun q => q) frames1 (by simp [frames1]) frames1_items_nil⟩

/-- If the current frame's timestamp is within the virtual timestamp and a
next frame exists, `advance` moves at least one step forward. -/
theorem advance_pos_step (stored : List StoredFrame) (t : ℚ) (i : ℕ)
    (h1 : i < stored.length - 1) (h2 : (stored.getD i ⟨0, 0⟩).timeMs ≤ t) :
    i + 1 ≤ advance stored t i := by
  unfold advance
  cases hl : stored.length with
  | zero => omega
  | succ m =>
    simp only [advanceAux]
    rw [if_pos ⟨h1, h2⟩]
    exact advanceAux_ge stored t m (i + 1)

/-- Indexing: `stored[i]?.timeMs ?? 0` agrees with `getD`-indexing while `i` is in
range. -/
theorem getTime_eq (stored : List StoredFrame) (i : ℕ) (h : i < stored.length) :
    ((stored.get? i).map StoredFrame.timeMs).getD 0 = (stored.getD i ⟨0, 0⟩).timeMs := by
  cases hx : stored.get? i with
  | none =>
    rw [List.get?_eq_none] at hx
    omega
  | some x => simp [List.getD_eq_getElem?_getD, ← List.get?_eq_getElem?, hx]

/-- C4 (amended): on an unpaused tick with the index in range, the index
advances forward (never backward) and is capped at the last frame; every
index it skips over has a timestamp at or below the updated virtual
timestamp; and unless it stops at the last frame, the frame it selects is
the first one whose timestamp strictly exceeds the virtual timestamp —
i.e. the source's `while` loop tests the timestamp of the frame at the
*current* search position, so the selected frame overshoots the virtual
timestamp by one position instead of being the nearest frame whose
timestamp does not exceed it. -/
theorem c4_tick_advances_forward (stored : List StoredFrame) (st : ReplayState)
    (s : ReplaySession) (now : ℚ) (hs : st.session = some s)
    (hp : st.replayPaused = false) (hidx : st.replayIdx < stored.length) :
    st.replayIdx ≤ (tick stored now st).replayIdx ∧
    (tick stored now st).replayIdx ≤ stored.length - 1 ∧
    (∀ j, st.replayIdx ≤ j → j < (tick stored now st).replayIdx →
      (stored.getD j ⟨0, 0⟩).timeMs ≤
        s.lastFrameTime + (now - s.lastRealTime.getD now) * s.speed) ∧
    ((tick stored now st).replayIdx < stored.length - 1 →
      ¬(stored.getD ((tick stored now st).replayIdx) ⟨0, 0⟩).timeMs ≤
        s.lastFrameTime + (now - s.lastRealTime.getD now) * s.speed) := by
  have htick : (tick stored now st).replayIdx =
      advance stored (s.lastFrameTime + (now - s.lastRealTime.getD now) * s.speed)
        st.replayIdx := by
    unfold tick
    rw [hs]
    simp only [hp, Bool.false_eq_true, if_false]
    rw [if_neg (by omega : ¬stored.length ≤ st.replayIdx)]
  rw [htick]
  exact ⟨advance_ge _ _ _, advance_le _ _ _ hidx,
    fun j hj1 hj2 => advance_below _ _ _ _ hj1 hj2,
    fun hlt => advance_stop _ _ _ hlt⟩

/-- C4 (witness): a concrete unpaused tick on the three-frame buffer. -/
theorem c4_tick_advances_forward_witness :
    ((⟨true, false, 1, 0, some ⟨1, some 0, 0⟩⟩ : ReplayState).replayIdx ≤
      (tick stored3 50 ⟨true, false, 1, 0, some ⟨1, some 0, 0⟩⟩).replayIdx ∧
    (tick stored3 50 ⟨true, false, 1, 0, some ⟨1, some 0, 0⟩⟩).replayIdx ≤
      stored3.length - 1 ∧
    (∀ j, (⟨true, false, 1, 0, some ⟨1, some 0, 0⟩⟩ : ReplayState).replayIdx ≤ j →
      j < (tick stored3 50 ⟨true, false, 1, 0, some ⟨1, some 0, 0⟩⟩).replayIdx →
      (stored3.getD j ⟨0, 0⟩).timeMs ≤
        (⟨1, some 0, 0⟩ : ReplaySession).lastFrameTime +
          (50 - (⟨1, some 0, 0⟩ : ReplaySession).lastRealTime.getD 50) *
            (⟨1, some 0, 0⟩ : ReplaySession).speed) ∧
    ((tick stored3 50 ⟨true, false, 1, 0, some ⟨1, some 0, 0⟩⟩).replayIdx <
        stored3.length - 1 →
      ¬(stored3.getD ((tick stored3 50 ⟨true, false, 1, 0,
            some ⟨1, some 0, 0⟩⟩).replayIdx) ⟨0, 0⟩).timeMs ≤
        (⟨1, some 0, 0⟩ : ReplaySession).lastFrameTime +
          (50 - (⟨1, some 0, 0⟩ : ReplaySession).lastRealTime.getD 50) *
            (⟨1, some 0, 0⟩ : ReplaySession).speed)) :=
  c4_tick_advances_forward stored3 ⟨true, false, 1, 0, some ⟨1, some 0, 0⟩⟩
    ⟨1, some 0, 0⟩ 50 rfl rfl (by norm_num [stored3])

/-- C4 (counterexample): with frames at 10/33/66 ms and an updated virtual
timestamp of 50 ms, the tick starting from index 0 selects index 2, whose
timestamp 66 exceeds 50, even though index 1 (timestamp 33) is the
nearest stored frame whose timestamp does not exceed the virtual
timestamp.  The claim's selection rule (`the nearest stored frame whose
timestamp does not exceed the virtual timestamp`) is therefore false of
the code. -/
theorem c4_counterexample :
    (tick stored3 50 (⟨true, false, 1, 0, some ⟨1, some 0, 0⟩⟩ : ReplayState)).replayIdx = 2 ∧
    (stored3.getD 2 ⟨0, 0⟩).timeMs = 66 ∧ ¬((66 : ℚ) ≤ 0 + (50 - 0) * 1) ∧
    (stored3.getD 1 ⟨0, 0⟩).timeMs = 33 ∧ ((33 : ℚ) ≤ 0 + (50 - 0) * 1) := by
  have hl : stored3.length = 3 := by norm_num [stored3]
  have ha : advance stored3 50 0 = 2 := by
    apply advance_eval
    · omega
    · norm_num [stored3]
    · norm_num [stored3]
    · intro j h1 h2
      interval_cases j <;> norm_num [stored3]
    · norm_num [stored3]
  have ht : tick stored3 50 (⟨true, false, 1, 0, some ⟨1, some 0, 0⟩⟩ : ReplayState) =
      ⟨true, false, 1, 2, some ⟨1, some 50, 50⟩⟩ := by
    norm_num [tick, hl, ha]
  rw [ht]
  norm_num [stored3]

/-- C9: pressing a speed button while a replay is active and paused
restarts playback from the current index with the paused flag cleared:
afterwards the scheduler is unpaused, the index and the new speed are as
expected, a fresh session (null `lastRealTime`, anchor at the current
frame's timestamp) is scheduled, and — whenever a next frame exists — the
next tick strictly advances the frame index instead of staying paused. -/
theorem c9_setSpeed_while_paused_unpauses (stored : List StoredFrame) (sp : ℚ)
    (st : ReplayState) (hr : st.isReplaying = true) (hp : st.replayPaused = true)
    (hne : stored.length ≠ 0) :
    (setSpeedClick stored sp st).isReplaying = true ∧
    (setSpeedClick stored sp st).replayPaused = false ∧
    (setSpeedClick stored sp st).replayIdx = st.replayIdx ∧
    (setSpeedClick stored sp st).replaySpeed = sp ∧
    (setSpeedClick stored sp st).session =
      some ⟨sp, none, ((stored.get? st.replayIdx).map StoredFrame.timeMs).getD 0⟩ ∧
    (∀ now, st.replayIdx + 1 < stored.length →
      st.replayIdx < (tick stored now (setSpeedClick stored sp st)).replayIdx) := by
  have hss : setSpeedClick stored sp st =
      ⟨true, false, sp, st.replayIdx,
        some ⟨sp, none, ((stored.get? st.replayIdx).map StoredFrame.timeMs).getD 0⟩⟩ := by
    unfold setSpeedClick startReplay
    simp [hr, hne]
  refine ⟨by rw [hss], by rw [hss], by rw [hss], by rw [hss], by rw [hss], ?_⟩
  intro now hlen
  rw [hss]
  have htick : (tick stored now
      (⟨true, false, sp, st.replayIdx,
        some ⟨sp, none, ((stored.get? st.replayIdx).map StoredFrame.timeMs).getD 0⟩⟩ :
        ReplayState)).replayIdx =
      advance stored (((stored.get? st.replayIdx).map StoredFrame.timeMs).getD 0)
        st.replayIdx := by
    unfold tick
    simp only [Bool.false_eq_true, if_false]
    rw [if_neg (by omega : ¬stored.length ≤ st.replayIdx)]
    simp only [Option.getD_none, sub_self, zero_mul, add_zero]
  rw [htick, getTime_eq stored st.replayIdx (by omega)]
  have := advance_pos_step stored ((stored.getD st.replayIdx ⟨0, 0⟩).timeMs)
    st.replayIdx (by omega) (le_refl _)
  omega

/-- C9 (witness): a concrete paused replay on the two-frame buffer, sped
up to 2×. -/
theorem c9_setSpeed_while_paused_unpauses_witness :
    (setSpeedClick stored2 2 ⟨true, true, 1, 0, some ⟨1, some 0, 0⟩⟩).isReplaying = true ∧
    (setSpeedClick stored2 2 ⟨true, true, 1, 0, some ⟨1, some 0, 0⟩⟩).replayPaused = false ∧
    (setSpeedClick stored2 2 ⟨true, true, 1, 0, some ⟨1, some 0, 0⟩⟩).replayIdx =
      (⟨true, true, 1, 0, some ⟨1, some 0, 0⟩⟩ : ReplayState).replayIdx ∧
    (setSpeedClick stored2 2 ⟨true, true, 1, 0, some ⟨1, some 0, 0⟩⟩).replaySpeed = 2 ∧
    (setSpeedClick stored2 2 ⟨true, true, 1, 0, some ⟨1, some 0, 0⟩⟩).session =
      some ⟨2, none, ((stored2.get? (⟨true, true, 1, 0, some ⟨1, some 0, 0⟩⟩ :
        ReplayState).replayIdx).map StoredFrame.timeMs).getD 0⟩ ∧
    (∀ now, (⟨true, true, 1, 0, some ⟨1, some 0, 0⟩⟩ : ReplayState).replayIdx + 1 <
        stored2.length →
      (⟨true, true, 1, 0, some ⟨1, some 0, 0⟩⟩ : ReplayState).replayIdx <
        (tick stored2 now (setSpeedClick stored2 2
          ⟨true, true, 1, 0, some ⟨1, some 0, 0⟩⟩)).replayIdx) :=
  c9_setSpeed_while_paused_unpauses stored2 2 ⟨true, true, 1, 0, some ⟨1, some 0, 0⟩⟩
    rfl rfl (by norm_num [stored2])

/-- C7: `calcAngle` is symmetric in its outer points, invariant under
uniform translation, returns exactly 0 when either adjacent vector has
zero magnitude, and always lies in `[0, 180]`. -/
theorem c7_calcAngle_properties (a b c t : Pt) :
    calcAngle a b c = calcAngle c b a ∧
    calcAngle (translate a t) (translate b t) (translate c t) = calcAngle a b c ∧
    (vmag (vsub a b) = 0 ∨ vmag (vsub c b) = 0 → calcAngle a b c = 0) ∧
    0 ≤ calcAngle a b c ∧ calcAngle a b c ≤ 180 := by
  refine ⟨?_, ?_, ?_, ?_, ?_⟩
  · have hdot : vdot (vsub a b) (vsub c b) = vdot (vsub c b) (vsub a b) := by
      simp only [vdot]
      ring
    have hmag : vmag (vsub a b) * vmag (vsub c b) = vmag (vsub c b) * vmag (vsub a b) :=
      mul_comm _ _
    unfold calcAngle
    rw [hdot, hmag]
  · have h1 : vsub (translate a t) (translate b t) = vsub a b := by
      simp only [vsub, translate, Pt.mk.injEq]
      constructor <;> ring
    have h2 : vsub (translate c t) (translate b t) = vsub c b := by
      simp only [vsub, translate, Pt.mk.injEq]
      constructor <;> ring
    unfold calcAngle
    rw [h1, h2]
  · intro h
    unfold calcAngle
    rw [if_pos]
    rcases h with h | h
    · rw [h, zero_mul]
    · rw [h, mul_zero]
  · unfold calcAngle
    split
    · exact le_refl 0
    · exact mul_nonneg (Real.arccos_nonneg _) (by positivity)
  · unfold calcAngle
    split
    · norm_num
    · have h1 := Real.arccos_le_pi (max (-1) (min 1
        (vdot (vsub a b) (vsub c b) / (vmag (vsub a b) * vmag (vsub c b)))))
      have h2 : Real.arccos (max (-1) (min 1
          (vdot (vsub a b) (vsub c b) / (vmag (vsub a b) * vmag (vsub c b))))) *
            (180 / Real.pi) ≤ Real.pi * (180 / Real.pi) :=
        mul_le_mul_of_nonneg_right h1 (by positivity)
      have h3 : Real.pi * (180 / Real.pi) = 180 := by
        field_simp
      linarith

/-- C7 (witness): the degenerate-vector branch at a concrete input — the
angle at `b = a` is exactly 0. -/
theorem c7_calcAngle_properties_witness :
    calcAngle ⟨0, 0⟩ ⟨0, 0⟩ ⟨1, 0⟩ = 0 :=
  (c7_calcAngle_properties ⟨0, 0⟩ ⟨0, 0⟩ ⟨1, 0⟩ ⟨2, 3⟩).2.2.1
    (Or.inl (by norm_num [vmag, vsub, Real.sqrt_zero]))

/-- C8 (amended): whenever both ears and both shoulders are present, the
head-rotation angle is the signed difference of the ear-line and
shoulder-line orientations in degrees, brought into range by adding or
subtracting one full turn, and it always lies in the *closed* interval
`[-180, 180]` (a raw difference of exactly −180 is left at −180, so the
half-open interval `(-180, 180]` of the claim is not correct). -/
theorem c8_monomi_normalized (lm : ℕ → Option Pt) (lE rE lS rS : Pt)
    (h7 : lm 7 = some lE) (h8 : lm 8 = some rE) (h11 : lm 11 = some lS)
    (h12 : lm 12 = some rS) :
    ∃ d : ℝ,
      (calcKyudoAngles lm).monomiAngle = some d ∧
      (d = (atan2 (rE.y - lE.y) (rE.x - lE.x) - atan2 (rS.y - lS.y) (rS.x - lS.x)) *
          (180 / Real.pi) ∨
       d = (atan2 (rE.y - lE.y) (rE.x - lE.x) - atan2 (rS.y - lS.y) (rS.x - lS.x)) *
          (180 / Real.pi) - 360 ∨
       d = (atan2 (rE.y - lE.y) (rE.x - lE.x) - atan2 (rS.y - lS.y) (rS.x - lS.x)) *
          (180 / Real.pi) + 360) ∧
      -180 ≤ d ∧ d ≤ 180 := by
  have hmon : (calcKyudoAngles lm).monomiAngle =
      some (if (if 180 < (atan2 (rE.y - lE.y) (rE.x - lE.x) -
              atan2 (rS.y - lS.y) (rS.x - lS.x)) * (180 / Real.pi) then
            (atan2 (rE.y - lE.y) (rE.x - lE.x) -
              atan2 (rS.y - lS.y) (rS.x - lS.x)) * (180 / Real.pi) - 360
          else
            (atan2 (rE.y - lE.y) (rE.x - lE.x) -
              atan2 (rS.y - lS.y) (rS.x - lS.x)) * (180 / Real.pi)) < -180 then
          (if 180 < (atan2 (rE.y - lE.y) (rE.x - lE.x) -
              atan2 (rS.y - lS.y) (rS.x - lS.x)) * (180 / Real.pi) then
            (atan2 (rE.y - lE.y) (rE.x - lE.x) -
              atan2 (rS.y - lS.y) (rS.x - lS.x)) * (180 / Real.pi) - 360
          else
            (atan2 (rE.y - lE.y) (rE.x - lE.x) -
              atan2 (rS.y - lS.y) (rS.x - lS.x)) * (180 / Real.pi)) + 360
        else
          (if 180 < (atan2 (rE.y - lE.y) (rE.x - lE.x) -
              atan2 (rS.y - lS.y) (rS.x - lS.x)) * (180 / Real.pi) then
            (atan2 (rE.y - lE.y) (rE.x - lE.x) -
              atan2 (rS.y - lS.y) (rS.x - lS.x)) * (180 / Real.pi) - 360
          else
            (atan2 (rE.y - lE.y) (rE.x - lE.x) -
              atan2 (rS.y - lS.y) (rS.x - lS.x)) * (180 / Real.pi))) := by
    simp only [calcKyudoAngles, h7, h8, h11, h12]
  have hpi : (0 : ℝ) < Real.pi := Real.pi_pos
  have he1 : atan2 (rE.y - lE.y) (rE.x - lE.x) ≤ Real.pi := Complex.arg_le_pi _
  have he2 : -Real.pi < atan2 (rE.y - lE.y) (rE.x - lE.x) := Complex.neg_pi_lt_arg _
  have hs1 : atan2 (rS.y - lS.y) (rS.x - lS.x) ≤ Real.pi := Complex.arg_le_pi _
  have hs2 : -Real.pi < atan2 (rS.y - lS.y) (rS.x - lS.x) := Complex.neg_pi_lt_arg _
  have hturn : 2 * Real.pi * (180 / Real.pi) = 360 := by
    field_simp
    ring
  have hub : (atan2 (rE.y - lE.y) (rE.x - lE.x) - atan2 (rS.y - lS.y) (rS.x - lS.x)) *
      (180 / Real.pi) < 360 := by
    have hd : atan2 (rE.y - lE.y) (rE.x - lE.x) - atan2 (rS.y - lS.y) (rS.x - lS.x) <
        2 * Real.pi := by linarith
    have := mul_lt_mul_of_pos_right hd (by positivity : (0 : ℝ) < 180 / Real.pi)
    linarith
  have hlb : -360 < (atan2 (rE.y - lE.y) (rE.x - lE.x) -
      atan2 (rS.y - lS.y) (rS.x - lS.x)) * (180 / Real.pi) := by
    have hd : -(2 * Real.pi) < atan2 (rE.y - lE.y) (rE.x - lE.x) -
        atan2 (rS.y - lS.y) (rS.x - lS.x) := by linarith
    have := mul_lt_mul_of_pos_right hd (by positivity : (0 : ℝ) < 180 / Real.pi)
    linarith
  rw [hmon]
  by_cases hc1 : 180 < (atan2 (rE.y - lE.y) (rE.x - lE.x) -
      atan2 (rS.y - lS.y) (rS.x - lS.x)) * (180 / Real.pi)
  · have hc2 : ¬((atan2 (rE.y - lE.y) (rE.x - lE.x) -
        atan2 (rS.y - lS.y) (rS.x - lS.x)) * (180 / Real.pi) - 360 < -180) := by
      linarith
    rw [if_pos hc1, if_neg hc2]
    exact ⟨_, rfl, Or.inr (Or.inl rfl), by linarith, by linarith⟩
  · by_cases hc3 : (atan2 (rE.y - lE.y) (rE.x - lE.x) -
        atan2 (rS.y - lS.y) (rS.x - lS.x)) * (180 / Real.pi) < -180
    · rw [if_neg hc1, if_pos hc3]
      exact ⟨_, rfl, Or.inr (Or.inr rfl), by linarith, by linarith⟩
    · rw [if_neg hc1, if_neg hc3]
      exact ⟨_, rfl, Or.inl rfl, by linarith, by linarith⟩

/-- C8 (witness): the amended statement at a concrete landmark set. -/
theorem c8_monomi_normalized_witness :
    ∃ d : ℝ,
      (calcKyudoAngles lmW).monomiAngle = some d ∧
      (d = (atan2 ((0 : ℝ) - 0) ((1 : ℝ) - 0) - atan2 ((1 : ℝ) - 1) ((1 : ℝ) - 0)) *
          (180 / Real.pi) ∨
       d = (atan2 ((0 : ℝ) - 0) ((1 : ℝ) - 0) - atan2 ((1 : ℝ) - 1) ((1 : ℝ) - 0)) *
          (180 / Real.pi) - 360 ∨
       d = (atan2 ((0 : ℝ) - 0) ((1 : ℝ) - 0) - atan2 ((1 : ℝ) - 1) ((1 : ℝ) - 0)) *
          (180 / Real.pi) + 360) ∧
      -180 ≤ d ∧ d ≤ 180 :=
  c8_monomi_normalized lmW ⟨0, 0⟩ ⟨1, 0⟩ ⟨0, 1⟩ ⟨1, 1⟩ rfl rfl rfl rfl

/-- C8 (counterexample): at `lmCx` the head-rotation angle is exactly
−180, which is not in the claim's half-open interval `(-180, 180]` — the
normalization only remaps differences strictly below −180, so −180 itself
survives. -/
theorem c8_counterexample :
    (calcKyudoAngles lmCx).monomiAngle = some (-180) ∧
    ¬((-180 : ℝ) ∈ Set.Ioc (-180 : ℝ) 180) := by
  constructor
  · have h1 : atan2 (0 : ℝ) 1 = 0 := by
      have hz : ((⟨1, 0⟩ : ℂ)) = 1 := by
        simp [Complex.ext_iff]
      rw [atan2, hz, Complex.arg_one]
    have h2 : atan2 (0 : ℝ) (-1) = Real.pi := by
      have hz : ((⟨-1, 0⟩ : ℂ)) = -1 := by
        simp [Complex.ext_iff]
      rw [atan2, hz, Complex.arg_neg_one]
    have h3 : ((0 : ℝ) - Real.pi) * (180 / Real.pi) = -180 := by
      field_simp
      ring
    simp only [calcKyudoAngles, lmCx]
    norm_num
    rw [h1, h2, h3]
    norm_num
  · simp [Set.mem_Ioc]

end AIKyudo
